import Mathlib

/-!
# lumberjack: a leveled logging library

A shallow embedding of `lumberjack.c` / `lumberjack.h`.

Conventions of the embedding

* `unsigned int` arguments are natural numbers, `int`/`long` values are integers.
* The `char` members of `struct log_ctx` hold the integer value of the `char`; the
  conversion `unsigned int → char` performed by an assignment is `to_char`, the conversion
  `char → unsigned int` performed by a getter's `return` is `to_uint`.
* A `char *` is an `Option String` (`none` is `NULL`); a `FILE *` is a natural number
  (`0` is `NULL`); a `log_fn` function pointer is an `Option Writer`.
* What the operating system and the C library answer (does `calloc` succeed, which stream
  does `fopen` return, does `strdup` succeed, is plain `char` signed) is the record `OS`;
  the clock reading and process id seen by a writer is the record `Sys`.
* The observable behaviour of a writer is the list of library calls it makes (`Event`),
  `fclose` and `free` leave no trace in the context other than the member they clear.
* A read past the end of an array, a call through a null function pointer and a write to a
  null stream are faults.
-/

namespace Lumberjack

/-! ## Constants of `syslog.h` and `enum LDST` -/

def LOG_EMERG : Nat := 0
def LOG_ALERT : Nat := 1
def LOG_CRIT : Nat := 2
def LOG_ERR : Nat := 3
def LOG_WARNING : Nat := 4
def LOG_NOTICE : Nat := 5
def LOG_INFO : Nat := 6
def LOG_DEBUG : Nat := 7

def LDST_STDERR : Nat := 0
def LDST_SYSLOG : Nat := 1
def LDST_NULL : Nat := 2
def LDST_FILE : Nat := 3
def LDST_USER : Nat := 4
def LDST_MAX : Nat := 5

/-! ## Data model -/

/-- The functions a `log_fn` slot can point to: the four writers of the library, or a
function of the host, identified by a number. -/
inductive Writer where
  | to_file
  | to_null
  | to_stderr
  | to_syslog
  | user (id : Nat)
deriving DecidableEq, Repr

/-- The members of `struct log_ctx`, in declaration order. -/
structure log_ctx where
  priority : Int
  dst : Int
  use_timestamp : Int
  rsvd : Int
  owner : Option String
  file : Nat
  filename : Option String
  log_fn : Option Writer
deriving DecidableEq, Repr

/-- Answers of the platform: signedness of plain `char`, whether `calloc` succeeds, the
stream `fopen(path, "a")` returns (`0` when the path cannot be opened) and the result of
`strdup` (`none` when it fails). -/
structure OS where
  char_signed : Bool
  calloc_ok : Bool
  fopen_append : String → Nat
  strdup : String → Option String

/-- The values `clock_gettime(CLOCK_REALTIME, _)` and `getpid()` return to a writer. -/
structure Sys where
  tv_sec : Int
  tv_nsec : Int
  pid : Int

inductive Fault where
  | out_of_bounds
  | null_call
  | null_stream
deriving DecidableEq, Repr

inductive Stream where
  | stdout
  | stderr
  | file (fp : Nat)
deriving DecidableEq, Repr

/-- Library calls with an effect outside the context. `write s text` is a
`fprintf`/`vfprintf` on stream `s` whose expansion is `text`. -/
inductive Event where
  | write (s : Stream) (text : String)
  | flush (s : Stream)
  | vsyslog (priority : Nat) (text : String)
  | user_call (id : Nat) (priority : Nat) (fn : String) (ln : Int) (text : String)
deriving DecidableEq, Repr

/-! ## C conversions and library functions -/

/-- Conversion of an `unsigned int` to `char` (8 bits, two's complement when signed). -/
def to_char (char_signed : Bool) (n : Nat) : Int :=
  if char_signed && decide (128 ≤ n % 256) then ((n % 256 : Nat) : Int) - 256
  else ((n % 256 : Nat) : Int)

/-- Conversion of a `char` value to `unsigned int` (32 bits). -/
def to_uint (x : Int) : Nat := (x % 4294967296).toNat

/-- The call `fopen(filepath, "a")`; a null path cannot be opened. -/
def c_fopen (os : OS) (filepath : Option String) : Nat :=
  match filepath with
  | none => 0
  | some p => os.fopen_append p

/-- The call `strdup(s)` for a non-null `s`. -/
def c_strdup (os : OS) (s : Option String) : Option String :=
  match s with
  | none => none
  | some p => os.strdup p

/-- Read of `tbl[i]` in a C array with `tbl.length` elements. -/
def c_index (tbl : List String) (i : Nat) : Except Fault String :=
  match tbl[i]? with
  | some s => .ok s
  | none => .error Fault.out_of_bounds

def pad_left (c : Char) (w : Nat) (s : String) : String :=
  String.mk (List.replicate (w - s.length) c) ++ s

/-- printf conversion `%d` (and `%ld` without width). -/
def fmt_d (x : Int) : String := toString x

/-- printf conversion `%10ld`: right-justified with blanks in a field of 10 characters. -/
def fmt_10ld (x : Int) : String := pad_left (Char.ofNat 32) 10 (toString x)

/-- printf conversion `%09ld`: padded with zeros after the sign to a field of 9 characters. -/
def fmt_09ld (x : Int) : String :=
  if x < 0 then "-" ++ pad_left (Char.ofNat 48) 8 (toString (-x))
  else pad_left (Char.ofNat 48) 9 (toString x)

/-- The stream a `FILE *` designates in a `fprintf`/`vfprintf` call; the null stream is a
fault. -/
def c_stream (fp : Nat) : Except Fault Stream :=
  if fp = 0 then .error Fault.null_stream else .ok (Stream.file fp)

/-- printf conversion `%s`; the C library prints `(null)` for a null pointer. -/
def fmt_s (s : Option String) : String :=
  match s with
  | some t => t
  | none => "(null)"

/-! ## Getters -/

def log_get_dst (ctx : log_ctx) : Nat := to_uint ctx.dst

def log_get_filename (ctx : log_ctx) : Option String := ctx.filename

def log_get_owner (ctx : log_ctx) : Option String := ctx.owner

def log_get_priority (ctx : log_ctx) : Nat := to_uint ctx.priority

def log_get_use_timestamp (ctx : log_ctx) : Nat := to_uint ctx.use_timestamp

/-! ## Setters and `log_init` -/

/-- Returns the updated context and `rv`. -/
def log_set_dst (os : OS) (ctx : log_ctx) (dst : Nat) (filepath : Option String)
    (fn : Option Writer) : log_ctx × Int :=
  -- Free filename if it was set before
  let ctx := if ctx.filename ≠ none then { ctx with filename := none } else ctx
  -- Close file if it is open
  let ctx := if ctx.file ≠ 0 then { ctx with file := 0 } else ctx
  if dst = LDST_SYSLOG then
    ({ ctx with log_fn := some Writer.to_syslog, dst := (LDST_SYSLOG : Nat) }, 0)
  else if dst = LDST_NULL then
    ({ ctx with log_fn := some Writer.to_null, dst := (LDST_NULL : Nat) }, 0)
  else if dst = LDST_FILE then
    let fp := c_fopen os filepath
    if fp > 0 then
      ({ ctx with log_fn := some Writer.to_file, dst := (LDST_FILE : Nat), file := fp,
                  filename := c_strdup os filepath }, 0)
    else
      ({ ctx with log_fn := some Writer.to_stderr, dst := (LDST_STDERR : Nat) }, 1)
  else if dst = LDST_USER then
    ({ ctx with log_fn := fn, dst := (LDST_USER : Nat) }, 0)
  else
    ({ ctx with log_fn := some Writer.to_stderr, dst := (LDST_STDERR : Nat) }, 0)

def log_set_owner (os : OS) (ctx : log_ctx) (owner : Option String) : log_ctx :=
  let ctx := if ctx.owner ≠ none then { ctx with owner := none } else ctx
  if owner ≠ none then { ctx with owner := c_strdup os owner } else ctx

/-- Returns the updated context and `rv`. The first test compares an unsigned value with 0. -/
def log_set_priority (ctx : log_ctx) (priority : Nat) : log_ctx × Int :=
  if priority < 0 then
    ({ ctx with priority := ((0 : Nat) : Int) }, 1)
  else if priority > LOG_DEBUG then
    ({ ctx with priority := (LOG_DEBUG : Nat) }, 1)
  else
    ({ ctx with priority := (priority : Nat) }, 0)

def log_set_use_timestamp (ctx : log_ctx) (use_timestamp : Nat) : log_ctx :=
  if use_timestamp ≠ 0 then { ctx with use_timestamp := 1 }
  else { ctx with use_timestamp := 0 }

/-- The block `calloc(1, sizeof(struct log_ctx))` returns: every member zero. -/
def zeroed_ctx : log_ctx :=
  { priority := 0, dst := 0, use_timestamp := 0, rsvd := 0, owner := none, file := 0,
    filename := none, log_fn := none }

/-- Returns `none` for the null handle. -/
def log_init (os : OS) (owner : Option String) (dst priority timestamp : Nat)
    (filepath : Option String) (fn : Option Writer) : Option log_ctx :=
  if os.calloc_ok = false then none
  else
    let l := zeroed_ctx
    let l := if owner ≠ none then { l with owner := c_strdup os owner } else l
    let l := { l with priority := to_char os.char_signed priority }
    let l := { l with use_timestamp := to_char os.char_signed timestamp }
    some (log_set_dst os l dst filepath fn).1

/-! ## String lookups -/

def levels : List String :=
  ["EMERG", "ALERT", "CRIT", "ERR", "WARNING", "NOTICE", "INFO", "DEBUG"]

def log_destinations : List String := ["STDIO", "SYSLOG", "NULL", "FILE"]

/-- The result `ok none` is the null pointer. -/
def log_str_priority (priority : Nat) : Except Fault (Option String) :=
  if priority < 0 ∨ priority > LOG_DEBUG then .ok none
  else (c_index levels priority).map some

/-- The result `ok none` is the null pointer. -/
def log_str_dst (dst : Nat) : Except Fault (Option String) :=
  if dst > LDST_MAX then .ok none
  else (c_index log_destinations dst).map some

/-! ## Writers and `log_submit` -/

/-- The two `fprintf` calls made when `use_timestamp` is set. -/
def stamp_events (sys : Sys) (ctx : log_ctx) (fp : Stream) (priority : Nat) (fn : String)
    (ln : Int) : Except Fault (List Event) :=
  match log_str_priority priority with
  | .error e => .error e
  | .ok label =>
    .ok [ Event.write fp ("[" ++ fmt_10ld sys.tv_sec ++ "." ++ fmt_09ld sys.tv_nsec ++ "] ["
            ++ fmt_d sys.pid ++ "] " ++ fmt_s label ++ " - "),
          Event.write fp (fmt_s ctx.owner ++ ": " ++ fmt_s (some fn) ++ ":" ++ fmt_d ln ++ " ") ]

/-- The stream is `ctx->file`; every call of the writer is made on it, the first one being a
`fprintf` (with `use_timestamp`) or the `vfprintf`. -/
def log_submit_to_file (sys : Sys) (ctx : log_ctx) (priority : Nat) (fn : String) (ln : Int)
    (msg : String) : Except Fault (List Event) :=
  match c_stream ctx.file with
  | .error e => .error e
  | .ok f =>
    match (if ctx.use_timestamp ≠ 0 then stamp_events sys ctx f priority fn ln else .ok []) with
    | .error e => .error e
    | .ok stamp => .ok (stamp ++ [Event.write f msg, Event.flush f])

def log_submit_to_null (_sys : Sys) (_ctx : log_ctx) (_priority : Nat) (_fn : String)
    (_ln : Int) (_msg : String) : Except Fault (List Event) :=
  .ok []

def log_submit_to_stderr (sys : Sys) (ctx : log_ctx) (priority : Nat) (fn : String) (ln : Int)
    (msg : String) : Except Fault (List Event) :=
  let fp := if priority ≥ LOG_INFO then Stream.stdout else Stream.stderr
  match (if ctx.use_timestamp ≠ 0 then stamp_events sys ctx fp priority fn ln else .ok []) with
  | .error e => .error e
  | .ok stamp => .ok (stamp ++ [Event.write fp msg])

def log_submit_to_syslog (_sys : Sys) (_ctx : log_ctx) (priority : Nat) (_fn : String)
    (_ln : Int) (msg : String) : Except Fault (List Event) :=
  .ok [Event.vsyslog priority msg]

/-- The call `ctx->log_fn(ctx, priority, fn, ln, format, args)`; `msg` is the expansion of
`format` with `args`. -/
def log_submit (sys : Sys) (ctx : log_ctx) (priority : Nat) (fn : String) (ln : Int)
    (msg : String) : Except Fault (List Event) :=
  match ctx.log_fn with
  | none => .error Fault.null_call
  | some Writer.to_file => log_submit_to_file sys ctx priority fn ln msg
  | some Writer.to_null => log_submit_to_null sys ctx priority fn ln msg
  | some Writer.to_stderr => log_submit_to_stderr sys ctx priority fn ln msg
  | some Writer.to_syslog => log_submit_to_syslog sys ctx priority fn ln msg
  | some (Writer.user id) => .ok [Event.user_call id priority fn ln msg]

/-! ## Emission helpers (`lumberjack.h`)

Each helper is the guarded statement `if (*((char*)ctx) >= SEV) log_submit(ctx, SEV, ...)`;
the byte read is the first member of the packed struct, `priority`. The result is `none` when
`log_submit` is not called, and `some r` when it is called with outcome `r`. Without
`ENABLE_LOGGING` the helper is the empty block. -/

def log_helper (ENABLE_LOGGING : Bool) (sev : Nat) (sys : Sys) (ctx : log_ctx) (fn : String)
    (ln : Int) (msg : String) : Option (Except Fault (List Event)) :=
  if ENABLE_LOGGING then
    if ctx.priority ≥ (sev : Int) then some (log_submit sys ctx sev fn ln msg) else none
  else none

def log_dbg (ENABLE_LOGGING : Bool) := log_helper ENABLE_LOGGING LOG_DEBUG
def log_info (ENABLE_LOGGING : Bool) := log_helper ENABLE_LOGGING LOG_INFO
def log_notice (ENABLE_LOGGING : Bool) := log_helper ENABLE_LOGGING LOG_NOTICE
def log_warn (ENABLE_LOGGING : Bool) := log_helper ENABLE_LOGGING LOG_WARNING
def log_err (ENABLE_LOGGING : Bool) := log_helper ENABLE_LOGGING LOG_ERR


/-! ## Observations on traces and call sequences -/

/-- The text a trace writes to stream `s`, in order. -/
def written (s : Stream) : List Event → String
  | [] => ""
  | Event.write s1 text :: rest => if s1 = s then text ++ written s rest else written s rest
  | _ :: rest => written s rest

/-- The text a trace writes, to whatever stream, in order. -/
def emitted : List Event → String
  | [] => ""
  | Event.write _ text :: rest => text ++ emitted rest
  | _ :: rest => emitted rest

/-- The stream the Stderr-split sink selects for a severity. -/
def split_stream (priority : Nat) : Stream :=
  if priority ≥ 6 then Stream.stdout else Stream.stderr

/-- The stream the Stderr-split sink does not select for a severity. -/
def other_stream (priority : Nat) : Stream :=
  if priority ≥ 6 then Stream.stderr else Stream.stdout

/-- Wording of the message format: `field` is `body` padded on the left with the character
`c` to a width of `w` characters; a longer `body` is not cut. -/
def padded_to (c : Char) (w : Nat) (body field : String) : Prop :=
  (∃ k, field = String.mk (List.replicate k c) ++ body) ∧ field.length = max w body.length

/-- A helper of severity `s` with outcome `r`, on a context of threshold `t`, calls
`log_submit` (whose outcome is `call`) exactly when `s ≤ t`. -/
def submits_iff (r : Option (Except Fault (List Event))) (call : Except Fault (List Event))
    (s t : Nat) : Prop :=
  (r.isSome ↔ s ≤ t) ∧ (s ≤ t → r = some call) ∧ (t < s → r = none)

/-- A setter call made by the host, with the platform's answers during that call. -/
inductive Setter where
  | set_dst (os : OS) (dst : Nat) (filepath : Option String) (fn : Option Writer)
  | set_owner (os : OS) (owner : Option String)
  | set_priority (priority : Nat)
  | set_use_timestamp (use_timestamp : Nat)

/-- The context after one setter call. -/
def apply_setter (ctx : log_ctx) : Setter → log_ctx
  | Setter.set_dst os dst filepath fn => (log_set_dst os ctx dst filepath fn).1
  | Setter.set_owner os owner => log_set_owner os ctx owner
  | Setter.set_priority priority => (log_set_priority ctx priority).1
  | Setter.set_use_timestamp use_timestamp => log_set_use_timestamp ctx use_timestamp

/-- The context after a sequence of setter calls, first call first. -/
def run_setters (ctx : log_ctx) (calls : List Setter) : log_ctx :=
  calls.foldl apply_setter ctx

/-- String duplication succeeds during the call. -/
def strdup_succeeds : Setter → Prop
  | Setter.set_dst os _ _ _ => ∀ s, os.strdup s = some s
  | Setter.set_owner os _ => ∀ s, os.strdup s = some s
  | _ => True

/-- The path given to the latest sink activation after one more call. -/
def latest_path (path : Option String) : Setter → Option String
  | Setter.set_dst _ _ filepath _ => filepath
  | _ => path

/-- The tag requested by the latest sink activation after one more call. -/
def latest_dst (dst : Nat) : Setter → Nat
  | Setter.set_dst _ requested _ _ => requested
  | _ => dst

/-- The `dst` argument of the latest `log_set_dst` call of the sequence, and `dst` (the
argument of `log_init`) when the sequence has none. -/
def supplied_dst (dst : Nat) (calls : List Setter) : Nat :=
  calls.foldl latest_dst dst

/-- The `filepath` argument of the latest `log_set_dst` call of the sequence, and `path`
(the argument of `log_init`) when the sequence has none. -/
def supplied_path (path : Option String) (calls : List Setter) : Option String :=
  calls.foldl latest_path path

/-- An activation asks for the File tag and `fopen` returns a stream for its path. -/
def file_opened (os : OS) (dst : Nat) (filepath : Option String) : Bool :=
  decide (dst = 3) && decide (c_fopen os filepath ≠ 0)

/-- Whether the latest sink activation opened a file, after one more call. -/
def latest_opened (opened : Bool) : Setter → Bool
  | Setter.set_dst os requested filepath _ => file_opened os requested filepath
  | _ => opened

/-- Whether the latest `log_set_dst` call of the sequence opened a file, and `opened` (what
`log_init` did) when the sequence has none. -/
def supplied_opened (opened : Bool) (calls : List Setter) : Bool :=
  calls.foldl latest_opened opened

/-- The sink members agree with the latest activation, which requested the tag `dst` with
the path `path` and opened a file or not (`opened`): either the tag is not File, no file was
opened and neither stream nor name is held, or the tag is File, File was requested, the file
was opened, a stream is held and the name held is `path`. -/
def sink_consistent (ctx : log_ctx) (dst : Nat) (path : Option String) (opened : Bool) : Prop :=
  ((ctx.dst = 0 ∨ ctx.dst = 1 ∨ ctx.dst = 2 ∨ ctx.dst = 4) ∧ opened = false ∧ ctx.file = 0 ∧
    ctx.filename = none)
  ∨ (ctx.dst = 3 ∧ dst = 3 ∧ opened = true ∧ ctx.file ≠ 0 ∧ ctx.filename = path ∧ path ≠ none)

/-- A platform on which allocation, duplication and opening a file succeed. -/
def sample_os (char_signed : Bool) : OS :=
  { char_signed := char_signed, calloc_ok := true, fopen_append := fun _ => 1, strdup := some }

/-! ## Label lookup -/

/-- C9: `log_str_priority` maps 0..7 to EMERG, ALERT, CRIT, ERR, WARNING, NOTICE, INFO, DEBUG,
returns the null pointer exactly for `n > 7`, never faults, and the eight labels are pairwise
distinct. -/
theorem log_str_priority_labels :
    log_str_priority 0 = .ok (some "EMERG") ∧ log_str_priority 1 = .ok (some "ALERT") ∧
    log_str_priority 2 = .ok (some "CRIT") ∧ log_str_priority 3 = .ok (some "ERR") ∧
    log_str_priority 4 = .ok (some "WARNING") ∧ log_str_priority 5 = .ok (some "NOTICE") ∧
    log_str_priority 6 = .ok (some "INFO") ∧ log_str_priority 7 = .ok (some "DEBUG") ∧
    (∀ n : Nat, log_str_priority n = .ok none ↔ n > 7) ∧
    (∀ n : Nat, n ≤ 7 → ∃ label, log_str_priority n = .ok (some label)) ∧
    (∀ m n : Nat, m ≤ 7 → n ≤ 7 → log_str_priority m = log_str_priority n → m = n) := by
  refine ⟨rfl, rfl, rfl, rfl, rfl, rfl, rfl, rfl, ?_, ?_, ?_⟩
  · intro n
    constructor
    · intro h
      by_contra hn
      have hle : n ≤ 7 := by omega
      interval_cases n <;> simp [log_str_priority, LOG_DEBUG, c_index, levels, Except.map] at h
    · intro h
      simp [log_str_priority, LOG_DEBUG, h]
  · intro n hn
    interval_cases n <;> simp [log_str_priority, LOG_DEBUG, c_index, levels, Except.map]
  · intro m n hm hn h
    interval_cases m <;> interval_cases n <;>
      simp [log_str_priority, LOG_DEBUG, c_index, levels, Except.map] at h ⊢

theorem log_str_priority_label (n : Nat) (h : n ≤ 7) :
    ∃ label, log_str_priority n = .ok (some label) := by
  interval_cases n <;> simp [log_str_priority, LOG_DEBUG, c_index, levels, Except.map]

theorem log_str_priority_total (n : Nat) : ∃ r, log_str_priority n = .ok r := by
  by_cases h : n ≤ 7
  · obtain ⟨label, hl⟩ := log_str_priority_label n h
    exact ⟨some label, hl⟩
  · exact ⟨none, by simp [log_str_priority, LOG_DEBUG]; omega⟩

/-- C8 (defect): for the tag `LDST_USER = 4`, and for the sentinel `LDST_MAX = 5`,
`log_str_dst` passes its guard `dst > LDST_MAX` and reads past the end of the four-entry
table `log_destinations`. -/
theorem log_str_dst_reads_past_table :
    log_destinations.length = 4 ∧
    log_str_dst LDST_USER = .error Fault.out_of_bounds ∧
    log_str_dst LDST_MAX = .error Fault.out_of_bounds ∧
    log_str_dst 3 = .ok (some "FILE") ∧ log_str_dst 6 = .ok none :=
  ⟨rfl, rfl, rfl, rfl, rfl⟩

/-! ## Setters -/

/-- C3: `log_set_priority` stores `p` and returns 0 when `p` is in [0,7]; otherwise it stores
0 if `p < 0` else 7 and returns non-zero. The other members of the context are unchanged. -/
theorem log_set_priority_clamps (ctx : log_ctx) (p : Nat) :
    (¬ ((0 : Int) ≤ (p : Int) ∧ (p : Int) ≤ 7) →
      log_get_priority (log_set_priority ctx p).1 = (if (p : Int) < 0 then 0 else 7) ∧
      (log_set_priority ctx p).2 ≠ 0) ∧
    (((0 : Int) ≤ (p : Int) ∧ (p : Int) ≤ 7) →
      log_get_priority (log_set_priority ctx p).1 = p ∧ (log_set_priority ctx p).2 = 0) ∧
    (log_set_priority ctx p).1 = { ctx with priority := (log_set_priority ctx p).1.priority } := by
  refine ⟨?_, ?_, ?_⟩
  · intro h
    have hp : p > 7 := by omega
    have h0 : ¬ ((p : Int) < 0) := by omega
    simp [log_set_priority, LOG_DEBUG, hp, h0, log_get_priority, to_uint]
  · intro h
    have hp : ¬ (p > 7) := by omega
    simp only [log_set_priority, LOG_DEBUG, hp, log_get_priority, to_uint, Nat.not_lt_zero,
      if_false]
    constructor
    · omega
    · trivial
  · simp only [log_set_priority]
    split_ifs <;> rfl

/-- C2: `log_set_dst` returns non-zero exactly when `dst` is `LDST_FILE` and `fopen` returns
the null stream; in that case the tag is `LDST_STDERR`, and neither a stream nor a file name
is held. Every other call returns 0. -/
theorem log_set_dst_return (os : OS) (ctx : log_ctx) (dst : Nat) (filepath : Option String)
    (fn : Option Writer) :
    ((log_set_dst os ctx dst filepath fn).2 ≠ 0 ↔ (dst = 3 ∧ c_fopen os filepath = 0)) ∧
    ((log_set_dst os ctx dst filepath fn).2 ≠ 0 →
      log_get_dst (log_set_dst os ctx dst filepath fn).1 = 0 ∧
      (log_set_dst os ctx dst filepath fn).1.file = 0 ∧
      log_get_filename (log_set_dst os ctx dst filepath fn).1 = none) ∧
    (¬ (dst = 3 ∧ c_fopen os filepath = 0) → (log_set_dst os ctx dst filepath fn).2 = 0) := by
  simp only [log_set_dst, LDST_SYSLOG, LDST_NULL, LDST_FILE, LDST_USER, LDST_STDERR,
    log_get_dst, log_get_filename, to_uint]
  split_ifs <;> simp_all <;> omega


/-! ## Writers -/

theorem log_submit_to_stderr_plain (sys : Sys) (ctx : log_ctx) (priority : Nat) (fn : String)
    (ln : Int) (msg : String) (ht : ctx.use_timestamp = 0) :
    log_submit_to_stderr sys ctx priority fn ln msg =
      .ok [Event.write (split_stream priority) msg] := by
  simp [log_submit_to_stderr, ht, split_stream, LOG_INFO]

theorem log_submit_to_stderr_stamped (sys : Sys) (ctx : log_ctx) (priority : Nat) (fn : String)
    (ln : Int) (msg : String) (label : Option String) (ht : ctx.use_timestamp ≠ 0)
    (hl : log_str_priority priority = .ok label) :
    log_submit_to_stderr sys ctx priority fn ln msg =
      .ok [ Event.write (split_stream priority)
              ("[" ++ fmt_10ld sys.tv_sec ++ "." ++ fmt_09ld sys.tv_nsec ++ "] ["
                ++ fmt_d sys.pid ++ "] " ++ fmt_s label ++ " - "),
            Event.write (split_stream priority)
              (fmt_s ctx.owner ++ ": " ++ fmt_s (some fn) ++ ":" ++ fmt_d ln ++ " "),
            Event.write (split_stream priority) msg ] := by
  simp [log_submit_to_stderr, stamp_events, hl, ht, split_stream, LOG_INFO]

theorem log_submit_to_file_plain (sys : Sys) (ctx : log_ctx) (priority : Nat) (fn : String)
    (ln : Int) (msg : String) (hf : ctx.file ≠ 0) (ht : ctx.use_timestamp = 0) :
    log_submit_to_file sys ctx priority fn ln msg =
      .ok [Event.write (Stream.file ctx.file) msg, Event.flush (Stream.file ctx.file)] := by
  simp [log_submit_to_file, c_stream, hf, ht]

theorem log_submit_to_file_stamped (sys : Sys) (ctx : log_ctx) (priority : Nat) (fn : String)
    (ln : Int) (msg : String) (label : Option String) (hf : ctx.file ≠ 0)
    (ht : ctx.use_timestamp ≠ 0) (hl : log_str_priority priority = .ok label) :
    log_submit_to_file sys ctx priority fn ln msg =
      .ok [ Event.write (Stream.file ctx.file)
              ("[" ++ fmt_10ld sys.tv_sec ++ "." ++ fmt_09ld sys.tv_nsec ++ "] ["
                ++ fmt_d sys.pid ++ "] " ++ fmt_s label ++ " - "),
            Event.write (Stream.file ctx.file)
              (fmt_s ctx.owner ++ ": " ++ fmt_s (some fn) ++ ":" ++ fmt_d ln ++ " "),
            Event.write (Stream.file ctx.file) msg,
            Event.flush (Stream.file ctx.file) ] := by
  simp [log_submit_to_file, c_stream, stamp_events, hl, hf, ht]

theorem log_submit_to_file_null_stream (sys : Sys) (ctx : log_ctx) (priority : Nat)
    (fn : String) (ln : Int) (msg : String) (hf : ctx.file = 0) :
    log_submit_to_file sys ctx priority fn ln msg = .error Fault.null_stream := by
  simp [log_submit_to_file, c_stream, hf]

theorem pad_left_padded_to (c : Char) (w : Nat) (body : String) :
    padded_to c w body (pad_left c w body) := by
  refine ⟨⟨w - body.length, rfl⟩, ?_⟩
  simp only [pad_left, String.length_append, String.length_mk, List.length_replicate]
  omega

theorem fmt_10ld_padded_to (x : Int) : padded_to (Char.ofNat 32) 10 (toString x) (fmt_10ld x) :=
  pad_left_padded_to _ _ _

theorem fmt_09ld_padded_to (x : Int) (hx : 0 ≤ x) :
    padded_to (Char.ofNat 48) 9 (toString x) (fmt_09ld x) := by
  have h : ¬ x < 0 := by omega
  simp only [fmt_09ld, h, if_false]
  exact pad_left_padded_to _ _ _

theorem split_stream_ne_other (priority : Nat) : split_stream priority ≠ other_stream priority := by
  by_cases hp : priority ≥ 6 <;> simp [split_stream, other_stream, hp]

/-- C6: the Stderr-split writer returns, every call it makes is a write to the standard
output when the severity is at least 6 and to the standard error otherwise; the text on that
stream is the whole message, which ends with the format expansion, and the other stream gets
nothing. -/
theorem log_submit_to_stderr_split (sys : Sys) (ctx : log_ctx) (priority : Nat) (fn : String)
    (ln : Int) (msg : String) :
    ∃ evs, log_submit_to_stderr sys ctx priority fn ln msg = .ok evs ∧
      (∀ e ∈ evs, ∃ text, e = Event.write (split_stream priority) text) ∧
      written (split_stream priority) evs = emitted evs ∧
      (∃ stamp, emitted evs = stamp ++ msg ∧ (ctx.use_timestamp = 0 → stamp = "")) ∧
      written (other_stream priority) evs = "" := by
  have hne := split_stream_ne_other priority
  by_cases ht : ctx.use_timestamp = 0
  · refine ⟨_, log_submit_to_stderr_plain sys ctx priority fn ln msg ht, ?_, ?_, ⟨"", ?_, ?_⟩, ?_⟩
    · simp
    · simp [written, emitted]
    · simp [emitted]
    · simp
    · simp [written, hne]
  · obtain ⟨label, hl⟩ := log_str_priority_total priority
    refine ⟨_, log_submit_to_stderr_stamped sys ctx priority fn ln msg label ht hl, ?_, ?_,
      ⟨("[" ++ fmt_10ld sys.tv_sec ++ "." ++ fmt_09ld sys.tv_nsec ++ "] ["
                ++ fmt_d sys.pid ++ "] " ++ fmt_s label ++ " - ") ++
        (fmt_s ctx.owner ++ ": " ++ fmt_s (some fn) ++ ":" ++ fmt_d ln ++ " "), ?_, ?_⟩, ?_⟩
    · simp
    · simp [written, emitted]
    · simp [emitted, String.append_assoc]
    · intro h
      exact absurd h ht
    · simp [written, hne]

/-- C7 (counterexample): on a context with an owner and no stream (`file` null), as
`log_init` returns it for the Stderr sink, the File writer faults on its first write and emits
nothing, while the Stderr-split writer emits the format expansion. -/
theorem file_writer_faults_without_stream :
    log_get_owner { zeroed_ctx with priority := 7, owner := some "testbench",
                                    log_fn := some Writer.to_stderr } = some "testbench" ∧
    log_submit_to_file ⟨12, 5, 42⟩
      { zeroed_ctx with priority := 7, owner := some "testbench",
                        log_fn := some Writer.to_stderr } 3 "main" 62 "z=7\n"
      = .error Fault.null_stream ∧
    log_submit_to_stderr ⟨12, 5, 42⟩
      { zeroed_ctx with priority := 7, owner := some "testbench",
                        log_fn := some Writer.to_stderr } 3 "main" 62 "z=7\n"
      = .ok [Event.write Stream.stderr "z=7\n"] ∧
    ¬ ∃ fe, log_submit_to_file ⟨12, 5, 42⟩
      { zeroed_ctx with priority := 7, owner := some "testbench",
                        log_fn := some Writer.to_stderr } 3 "main" 62 "z=7\n" = .ok fe := by
  refine ⟨rfl, rfl, rfl, ?_⟩
  rintro ⟨fe, h⟩
  rw [log_submit_to_file_null_stream _ _ _ _ _ _ rfl] at h
  cases h

/-- C7 (amended): for a context with an owner that holds a stream (`file` not null) and a
severity in [0,7], the File writer and the Stderr-split writer emit the same text: the format
expansion alone when `use_timestamp` is 0, and otherwise the expansion preceded by
`[` sec `.` nsec `] [` pid `] ` LABEL ` - ` owner `: ` function `:` line ` `, where the sec
field (`%10ld`) is the decimal sec padded with blanks on the left to 10 characters, the nsec
field (`%09ld`) is, for a non-negative nsec, the decimal nsec padded with zeros on the left
to 9 characters, and LABEL is the label of the severity. Nothing follows the format
expansion. -/
theorem file_text_eq_stderr_text (sys : Sys) (ctx : log_ctx) (sev : Nat) (fn : String) (ln : Int)
    (msg owner : String) (ho : ctx.owner = some owner) (hf : ctx.file ≠ 0) (hs : sev ≤ 7) :
    ∃ fe se label sec_field nsec_field,
      log_submit_to_file sys ctx sev fn ln msg = .ok fe ∧
      log_submit_to_stderr sys ctx sev fn ln msg = .ok se ∧
      log_str_priority sev = .ok (some label) ∧
      emitted fe = emitted se ∧
      sec_field = fmt_10ld sys.tv_sec ∧ nsec_field = fmt_09ld sys.tv_nsec ∧
      padded_to (Char.ofNat 32) 10 (toString sys.tv_sec) sec_field ∧
      (0 ≤ sys.tv_nsec → padded_to (Char.ofNat 48) 9 (toString sys.tv_nsec) nsec_field) ∧
      (ctx.use_timestamp = 0 → emitted fe = msg) ∧
      (ctx.use_timestamp ≠ 0 → emitted fe =
        "[" ++ sec_field ++ "." ++ nsec_field ++ "] [" ++ toString sys.pid
          ++ "] " ++ label ++ " - " ++ owner ++ ": " ++ fn ++ ":" ++ toString ln ++ " "
          ++ msg) := by
  obtain ⟨label, hl⟩ := log_str_priority_label sev hs
  by_cases ht : ctx.use_timestamp = 0
  · refine ⟨_, _, label, _, _, log_submit_to_file_plain sys ctx sev fn ln msg hf ht,
      log_submit_to_stderr_plain sys ctx sev fn ln msg ht, hl, ?_, rfl, rfl,
      fmt_10ld_padded_to _, fmt_09ld_padded_to _, ?_, ?_⟩
    · simp [emitted]
    · intro _
      simp [emitted]
    · intro h
      exact absurd ht h
  · refine ⟨_, _, label, _, _, log_submit_to_file_stamped sys ctx sev fn ln msg _ hf ht hl,
      log_submit_to_stderr_stamped sys ctx sev fn ln msg _ ht hl, hl, ?_, rfl, rfl,
      fmt_10ld_padded_to _, fmt_09ld_padded_to _, ?_, ?_⟩
    · simp [emitted]
    · intro h
      exact absurd h ht
    · intro _
      simp [emitted, fmt_s, fmt_d, ho, String.append_assoc]

/-- Witness for C7: an ERR message of owner "testbench" with the timestamp enabled, at
clock reading (12, 5) and pid 42. -/
theorem file_text_eq_stderr_text_witness :
    ∃ fe se,
      log_submit_to_file ⟨12, 5, 42⟩
        { zeroed_ctx with use_timestamp := 1, owner := some "testbench", file := 1 }
        3 "main" 62 "z=7\n" = .ok fe ∧
      log_submit_to_stderr ⟨12, 5, 42⟩
        { zeroed_ctx with use_timestamp := 1, owner := some "testbench", file := 1 }
        3 "main" 62 "z=7\n" = .ok se ∧
      emitted fe = emitted se ∧
      emitted fe = "[        12.000000005] [42] ERR - testbench: main:62 z=7\n" := by
  obtain ⟨fe, se, label, sec_field, nsec_field, hfe, hse, hl, heq, hsec, hnsec, -, -, -, hst⟩ :=
    file_text_eq_stderr_text ⟨12, 5, 42⟩
      { zeroed_ctx with use_timestamp := 1, owner := some "testbench", file := 1 }
      3 "main" 62 "z=7\n" "testbench" rfl (by decide) (by decide)
  have hlabel : log_str_priority 3 = .ok (some "ERR") := rfl
  rw [hlabel] at hl
  injection hl with hl
  injection hl with hl
  subst hl hsec hnsec
  exact ⟨fe, se, hfe, hse, heq, (hst (by decide)).trans (by decide)⟩

/-! ## Emission helpers -/

/-- C1: with logging enabled and a threshold `t` in [0,7], each of `log_err` (3), `log_warn`
(4), `log_notice` (5), `log_info` (6), `log_dbg` (7) calls `log_submit` with its severity
if and only if that severity is at most `t`, and makes no call otherwise. -/
theorem helpers_submit_iff_le_threshold (sys : Sys) (ctx : log_ctx) (fn : String) (ln : Int)
    (msg : String) (t : Nat) (ht : t ≤ 7) (hp : ctx.priority = (t : Int)) :
    log_get_priority ctx = t ∧
    submits_iff (log_err true sys ctx fn ln msg) (log_submit sys ctx 3 fn ln msg) 3 t ∧
    submits_iff (log_warn true sys ctx fn ln msg) (log_submit sys ctx 4 fn ln msg) 4 t ∧
    submits_iff (log_notice true sys ctx fn ln msg) (log_submit sys ctx 5 fn ln msg) 5 t ∧
    submits_iff (log_info true sys ctx fn ln msg) (log_submit sys ctx 6 fn ln msg) 6 t ∧
    submits_iff (log_dbg true sys ctx fn ln msg) (log_submit sys ctx 7 fn ln msg) 7 t := by
  have key : ∀ s : Nat, submits_iff (log_helper true s sys ctx fn ln msg)
      (log_submit sys ctx s fn ln msg) s t := by
    intro s
    by_cases h : s ≤ t
    · have h2 : (s : Int) ≤ (t : Int) := by omega
      simp [submits_iff, log_helper, hp, h, h2]
    · have h2 : ¬ ((s : Int) ≤ (t : Int)) := by omega
      have h3 : t < s := by omega
      simp [submits_iff, log_helper, hp, h, h2, h3]
  refine ⟨?_, key 3, key 4, key 5, key 6, key 7⟩
  simp only [log_get_priority, to_uint, hp]
  omega

/-- Witness for C1: threshold 6 on a Stderr context; `log_info` submits, `log_dbg` does not. -/
theorem helpers_submit_iff_le_threshold_witness :
    (log_info true ⟨0, 0, 1⟩ { zeroed_ctx with priority := 6, log_fn := some Writer.to_stderr }
        "main" 60 "x=5").isSome = true ∧
    log_dbg true ⟨0, 0, 1⟩ { zeroed_ctx with priority := 6, log_fn := some Writer.to_stderr }
        "main" 61 "y=6" = none := by
  constructor
  · exact (helpers_submit_iff_le_threshold ⟨0, 0, 1⟩
      { zeroed_ctx with priority := 6, log_fn := some Writer.to_stderr } "main" 60 "x=5" 6
      (by decide) rfl).2.2.2.2.1.1.2 (by decide)
  · exact (helpers_submit_iff_le_threshold ⟨0, 0, 1⟩
      { zeroed_ctx with priority := 6, log_fn := some Writer.to_stderr } "main" 61 "y=6" 6
      (by decide) rfl).2.2.2.2.2.2.2 (by decide)

/-! ## `log_init` -/

/-- C4 (defect): `log_init` stores the priority it is given without clamping it; with
priority 9 the new context reports 9, where `log_set_priority` stores 7. -/
theorem log_init_priority_not_clamped :
    (log_init (sample_os true) (some "testbench") LDST_STDERR 9 1 none none).map
        log_get_priority = some 9 ∧
    (log_init (sample_os false) (some "testbench") LDST_STDERR 9 1 none none).map
        log_get_priority = some 9 ∧
    log_get_priority (log_set_priority zeroed_ctx 9).1 = 7 := by
  refine ⟨?_, ?_, ?_⟩ <;> rfl

/-- C10 (defect): `log_init` stores the timestamp flag it is given without normalizing it;
with flag 2 the new context reports 2 and with flag 256 it reports 0, where
`log_set_use_timestamp` stores 1 for both. -/
theorem log_init_use_timestamp_not_normalized :
    (log_init (sample_os true) (some "testbench") LDST_STDERR 7 2 none none).map
        log_get_use_timestamp = some 2 ∧
    (log_init (sample_os true) (some "testbench") LDST_STDERR 7 256 none none).map
        log_get_use_timestamp = some 0 ∧
    (log_init (sample_os false) (some "testbench") LDST_STDERR 7 2 none none).map
        log_get_use_timestamp = some 2 ∧
    (log_init (sample_os false) (some "testbench") LDST_STDERR 7 256 none none).map
        log_get_use_timestamp = some 0 ∧
    log_get_use_timestamp (log_set_use_timestamp zeroed_ctx 2) = 1 ∧
    log_get_use_timestamp (log_set_use_timestamp zeroed_ctx 256) = 1 := by
  refine ⟨?_, ?_, ?_, ?_, ?_, ?_⟩ <;> rfl

/-! ## Sink state -/

theorem log_set_dst_sink_consistent (os : OS) (ctx : log_ctx) (dst : Nat)
    (filepath : Option String) (fn : Option Writer) (hdup : ∀ s, os.strdup s = some s) :
    sink_consistent (log_set_dst os ctx dst filepath fn).1 dst filepath
      (file_opened os dst filepath) := by
  cases filepath with
  | none =>
    simp only [log_set_dst, sink_consistent, file_opened, c_fopen, c_strdup, LDST_SYSLOG,
      LDST_NULL, LDST_FILE, LDST_USER, LDST_STDERR]
    split_ifs <;> simp_all
  | some path =>
    simp only [log_set_dst, sink_consistent, file_opened, c_fopen, c_strdup, LDST_SYSLOG,
      LDST_NULL, LDST_FILE, LDST_USER, LDST_STDERR, hdup]
    split_ifs <;> simp_all <;> omega

theorem apply_setter_sink_consistent (ctx : log_ctx) (dst : Nat) (path : Option String)
    (opened : Bool) (c : Setter) (hc : strdup_succeeds c)
    (h : sink_consistent ctx dst path opened) :
    sink_consistent (apply_setter ctx c) (latest_dst dst c) (latest_path path c)
      (latest_opened opened c) := by
  cases c with
  | set_dst os requested filepath fn =>
    exact log_set_dst_sink_consistent os ctx requested filepath fn hc
  | set_owner os owner =>
    simp only [apply_setter, latest_dst, latest_path, latest_opened, log_set_owner,
      sink_consistent] at h ⊢
    split_ifs <;> exact h
  | set_priority priority =>
    simp only [apply_setter, latest_dst, latest_path, latest_opened, log_set_priority,
      sink_consistent] at h ⊢
    split_ifs <;> exact h
  | set_use_timestamp use_timestamp =>
    simp only [apply_setter, latest_dst, latest_path, latest_opened, log_set_use_timestamp,
      sink_consistent] at h ⊢
    split_ifs <;> exact h

theorem run_setters_sink_consistent (calls : List Setter) :
    ∀ (ctx : log_ctx) (dst : Nat) (path : Option String) (opened : Bool),
      (∀ c ∈ calls, strdup_succeeds c) →
      sink_consistent ctx dst path opened →
      sink_consistent (run_setters ctx calls) (supplied_dst dst calls)
        (supplied_path path calls) (supplied_opened opened calls) := by
  induction calls with
  | nil =>
    intro ctx dst path opened _ h
    exact h
  | cons c rest ih =>
    intro ctx dst path opened hcalls h
    have hc : strdup_succeeds c := hcalls c (List.mem_cons_self c rest)
    have hrest : ∀ d ∈ rest, strdup_succeeds d := fun d hd => hcalls d (List.mem_cons_of_mem c hd)
    have hstep := apply_setter_sink_consistent ctx dst path opened c hc h
    exact ih _ _ _ _ hrest hstep

theorem log_init_sink_consistent (os : OS) (owner : Option String) (dst priority timestamp : Nat)
    (filepath : Option String) (fn : Option Writer) (ctx0 : log_ctx)
    (hdup : ∀ s, os.strdup s = some s)
    (hinit : log_init os owner dst priority timestamp filepath fn = some ctx0) :
    sink_consistent ctx0 dst filepath (file_opened os dst filepath) := by
  unfold log_init at hinit
  split_ifs at hinit with hc
  all_goals
    simp only [Option.some.injEq] at hinit
    rw [← hinit]
    exact log_set_dst_sink_consistent os _ dst filepath fn hdup

/-- C5: in every context obtained from `log_init` by a sequence of `log_set_dst`,
`log_set_owner`, `log_set_priority` and `log_set_use_timestamp` calls, with string
duplication succeeding, the tag is File (3) iff a stream is held, iff a file name is held;
when the tag is File, `log_get_filename` is the path given to the latest
`log_init`/`log_set_dst` call; and when that latest call asked for a tag other than File,
whatever path came with it, the tag is not File, no stream is held and no file name is
held. The tag is File exactly when that latest call asked for File and `fopen` returned a
stream. -/
theorem sink_state_invariant (os : OS) (owner : Option String) (dst priority timestamp : Nat)
    (filepath : Option String) (fn : Option Writer) (calls : List Setter) (ctx0 : log_ctx)
    (hdup : ∀ s, os.strdup s = some s) (hcalls : ∀ c ∈ calls, strdup_succeeds c)
    (hinit : log_init os owner dst priority timestamp filepath fn = some ctx0) :
    (log_get_dst (run_setters ctx0 calls) = 3 ↔ (run_setters ctx0 calls).file ≠ 0) ∧
    (log_get_dst (run_setters ctx0 calls) = 3 ↔
      log_get_filename (run_setters ctx0 calls) ≠ none) ∧
    (log_get_dst (run_setters ctx0 calls) = 3 →
      log_get_filename (run_setters ctx0 calls) = supplied_path filepath calls) ∧
    (supplied_dst dst calls ≠ 3 →
      log_get_dst (run_setters ctx0 calls) ≠ 3 ∧ (run_setters ctx0 calls).file = 0 ∧
      log_get_filename (run_setters ctx0 calls) = none) ∧
    (log_get_dst (run_setters ctx0 calls) = 3 ↔
      supplied_opened (file_opened os dst filepath) calls = true) := by
  have h0 := log_init_sink_consistent os owner dst priority timestamp filepath fn ctx0 hdup hinit
  have h := run_setters_sink_consistent calls ctx0 dst filepath _ hcalls h0
  simp only [log_get_dst, log_get_filename, to_uint]
  rcases h with ⟨hd, ho, hf, hn⟩ | ⟨hd, hreq, ho, hf, hn, hp⟩
  · rw [hf, hn, ho]
    rcases hd with hd | hd | hd | hd <;> rw [hd] <;> simp
  · rw [hn, hd, ho]
    refine ⟨?_, ?_, ?_, ?_, ?_⟩
    · simp [hf]
    · simp [hp]
    · intro _
      rfl
    · intro hne
      exact absurd hreq hne
    · simp

/-- Witness for C5: `log_init` on File with "test.log", then a switch to Null that comes with
the path "a.log" (nothing is stored); and the same followed by a priority change and a
switch back to File with "b.log". -/
theorem sink_state_invariant_witness :
    (log_get_dst (run_setters
        { zeroed_ctx with priority := 7, use_timestamp := 1, owner := some "testbench",
                          dst := 3, file := 1, filename := some "test.log",
                          log_fn := some Writer.to_file }
        [Setter.set_dst (sample_os true) LDST_NULL (some "a.log") none]) ≠ 3 ∧
      (run_setters
        { zeroed_ctx with priority := 7, use_timestamp := 1, owner := some "testbench",
                          dst := 3, file := 1, filename := some "test.log",
                          log_fn := some Writer.to_file }
        [Setter.set_dst (sample_os true) LDST_NULL (some "a.log") none]).file = 0 ∧
      log_get_filename (run_setters
        { zeroed_ctx with priority := 7, use_timestamp := 1, owner := some "testbench",
                          dst := 3, file := 1, filename := some "test.log",
                          log_fn := some Writer.to_file }
        [Setter.set_dst (sample_os true) LDST_NULL (some "a.log") none]) = none) ∧
    log_get_filename (run_setters
      { zeroed_ctx with priority := 7, use_timestamp := 1, owner := some "testbench",
                        dst := 3, file := 1, filename := some "test.log",
                        log_fn := some Writer.to_file }
      [Setter.set_dst (sample_os true) LDST_NULL (some "a.log") none, Setter.set_priority 3,
       Setter.set_dst (sample_os true) LDST_FILE (some "b.log") none]) = some "b.log" := by
  constructor
  · exact (sink_state_invariant (sample_os true) (some "testbench") LDST_FILE 7 1
      (some "test.log") none [Setter.set_dst (sample_os true) LDST_NULL (some "a.log") none] _
      (fun _ => rfl)
      (by
        intro c hc
        simp only [List.mem_singleton] at hc
        subst hc
        exact fun _ => rfl)
      rfl).2.2.2.1 (by decide)
  · exact (sink_state_invariant (sample_os true) (some "testbench") LDST_FILE 7 1
      (some "test.log") none
      [Setter.set_dst (sample_os true) LDST_NULL (some "a.log") none, Setter.set_priority 3,
       Setter.set_dst (sample_os true) LDST_FILE (some "b.log") none] _
      (fun _ => rfl)
      (by
        intro c hc
        simp only [List.mem_cons, List.mem_singleton, List.not_mem_nil, or_false] at hc
        rcases hc with rfl | rfl | rfl
        · exact fun _ => rfl
        · exact trivial
        · exact fun _ => rfl)
      rfl).2.2.1 rfl

end Lumberjack
